import Mathlib

/-!
Verification of the natural-language specification of `system_monitor.py`,
an e-Paper system monitor.  The embedding below translates, from the source,
the SMART history ring buffer (`smart_stats_history`, `update_smart_history`,
`calculate_deltas`), the smartctl result handling (`get_smart_stats` with its
line parsing), the main-loop refresh scheduler (`update_count`-driven full
refresh), the minute-boundary sleep computation, and the top-level exception
handlers.  The durable on-disk baseline strategy described by the spec has no
implementation in the source, so it is modelled from the spec (see
`bestBaseline_durable`).
-/

/-- A SMART attribute dictionary: association list from attribute name to
integer value, mirroring the Python dict built by `get_smart_stats`.
Python dict-assignment semantics are given by `setStat`, and the
`dict.get(key, 0)` read by `statsGet`. -/
abbrev Stats := List (String × Int)

/-- Python `stats.get(key, 0)`: a missing key reads as 0. -/
def statsGet (s : Stats) (k : String) : Int := (s.lookup k).getD 0

/-- Python dict assignment `stats[k] = v` (overwrite, keep a single entry per key). -/
def setStat (s : Stats) (k : String) (v : Int) : Stats :=
  (s.filter (fun p => !(p.1 == k))) ++ [(k, v)]

/-- `smart_stats_history`: hourly buckets keyed by hour-of-day 0..23.
An absent dict key is `none`. -/
abbrev History := Fin 24 → Option Stats

/-- The initial empty history (`smart_stats_history = {}`). -/
def emptyHistory : History := fun _ => none

/-- Python truthiness test `if smart_stats_history:` on the bucket dict:
true iff some bucket is populated. -/
def histNonempty (hist : History) : Bool :=
  (List.finRange 24).any (fun i => (hist i).isSome)

/-- Python truthiness of an optional stats dict (`if stats:`):
`None` and the empty dict are falsy. -/
def pyTruthy : Option Stats → Bool
  | none => false
  | some s => !s.isEmpty

/-- Python `(current_hour - i) % 24` for `0 ≤ i ≤ 23` (Python `%` on a
negative left operand still yields a value in 0..23). -/
def hourBack (h : Fin 24) (i : Nat) : Fin 24 :=
  ⟨((h : Nat) + 24 - i) % 24, Nat.mod_lt _ (by omega)⟩

/-- The fallback scan loop body of `calculate_deltas`:
`for i in ...: check_hour = (current_hour - i) % 24;
 if check_hour in smart_stats_history: oldest_hour = check_hour`.
Note there is no break: a later populated bucket overwrites the candidate. -/
def scanOldest (hist : History) (h : Fin 24) : List Nat → Option (Fin 24) → Option (Fin 24)
  | [], oldest_hour => oldest_hour
  | i :: rest, oldest_hour =>
      scanOldest hist h rest
        (if (hist (hourBack h i)).isSome then some (hourBack h i) else oldest_hour)

/-- The full fallback scan `for i in range(1, 24)` of `calculate_deltas`. -/
def findFallback (hist : History) (h : Fin 24) : Option (Fin 24) :=
  scanOldest hist h (List.range' 1 23) none

/-- The baseline-selection logic of `calculate_deltas`: prefer the bucket at
`current_hour` (which still holds the not-yet-overwritten ~24h-old data),
else the result of the backwards scan. -/
def find_baseline (hist : History) (current_hour : Fin 24) : Option Stats :=
  if (hist current_hour).isSome then hist current_hour
  else
    match findFallback hist current_hour with
    | none => none
    | some oldest_hour => hist oldest_hour

/-- `calculate_deltas(current_stats, current_hour)` from the source:
`if not current_stats or not smart_stats_history: return None, None`,
then baseline selection, then the two subtractions with `.get(key, 0)`. -/
def calculate_deltas (hist : History) (current_stats : Option Stats) (current_hour : Fin 24) :
    Option Int × Option Int :=
  match current_stats with
  | none => (none, none)
  | some s =>
    if s.isEmpty || !histNonempty hist then (none, none)
    else
      match find_baseline hist current_hour with
      | none => (none, none)
      | some prev_stats =>
          (some (statsGet s "Load_Cycle_Count" - statsGet prev_stats "Load_Cycle_Count"),
           some (statsGet s "Start_Stop_Count" - statsGet prev_stats "Start_Stop_Count"))

/-- `update_smart_history(stats, hour)`: `if stats: smart_stats_history[hour] = stats`.
`None` and the empty dict are both falsy, so neither is recorded. -/
def update_smart_history (hist : History) (stats : Option Stats) (hour : Fin 24) : History :=
  match stats with
  | none => hist
  | some s => if s.isEmpty then hist else Function.update hist hour (some s)

/-- The SMART-related portion of one `render_display` cycle, in source order:
first `calculate_deltas(smart_stats, current_hour)` is evaluated against the
pre-cycle history, then `if smart_stats: update_smart_history(...)` writes the
current sample into the current hour's bucket. Returns the deltas and the
post-cycle history. -/
def render_display_smart (hist : History) (smart_stats : Option Stats) (current_hour : Fin 24) :
    (Option Int × Option Int) × History :=
  (calculate_deltas hist smart_stats current_hour,
   if pyTruthy smart_stats then update_smart_history hist smart_stats current_hour else hist)

/-- The history after a sequence of `update_smart_history` calls starting from
the initial empty `smart_stats_history`. -/
def histAfterUpdates (ups : List (Option Stats × Fin 24)) : History :=
  ups.foldl (fun hist u => update_smart_history hist u.1 u.2) emptyHistory

/-! Python-style string primitives used by the smartctl output parsing.
Strings are modelled as character lists. -/

/-- Strings as character lists (the parsing in `get_smart_stats` only uses
character-level operations). -/
abbrev PyStr := List Char

/-- Does `pat` occur at the start of `s`? -/
def pyStartsWith : PyStr → PyStr → Bool
  | [], _ => true
  | _ :: _, [] => false
  | p :: ps, c :: cs => p == c && pyStartsWith ps cs

/-- Python substring test `pat in s`. -/
def pyContains (s pat : PyStr) : Bool :=
  match s with
  | [] => pat.isEmpty
  | c :: rest => pyStartsWith pat (c :: rest) || pyContains rest pat

/-- Python `str.strip()` (leading and trailing whitespace removed). -/
def pyStrip (s : PyStr) : PyStr :=
  ((s.dropWhile Char.isWhitespace).reverse.dropWhile Char.isWhitespace).reverse

/-- Helper for `pySplitWs`: accumulate the current token (reversed). -/
def pySplitWsAux : PyStr → PyStr → List PyStr
  | [], acc => if acc.isEmpty then [] else [acc.reverse]
  | c :: cs, acc =>
      if c.isWhitespace then
        if acc.isEmpty then pySplitWsAux cs [] else acc.reverse :: pySplitWsAux cs []
      else pySplitWsAux cs (c :: acc)

/-- Python `str.split()` with no argument: split on whitespace runs,
discarding empty tokens. -/
def pySplitWs (s : PyStr) : List PyStr := pySplitWsAux s []

/-- Helper for `splitLines`: accumulate the current line (reversed). -/
def splitLinesAux : PyStr → PyStr → List PyStr
  | [], acc => [acc.reverse]
  | c :: cs, acc =>
      if c == '\n' then acc.reverse :: splitLinesAux cs []
      else splitLinesAux cs (c :: acc)

/-- Python `str.split('\n')` (keeps empty lines). -/
def splitLines (s : PyStr) : List PyStr := splitLinesAux s []

/-- Helper for `digitsVal`: fold decimal digits; any non-digit fails. -/
def digitsValAux : PyStr → Nat → Option Nat
  | [], acc => some acc
  | c :: cs, acc =>
      if c.isDigit then digitsValAux cs (acc * 10 + (c.toNat - 48)) else none

/-- Value of a non-empty all-digit string. -/
def digitsVal : PyStr → Option Nat
  | [] => none
  | c :: cs => digitsValAux (c :: cs) 0

/-- Python `int(token)` on a whitespace-free token: optional sign followed by
at least one decimal digit; anything else raises (here: `none`). -/
def pyInt (s : PyStr) : Option Int :=
  match s with
  | '-' :: rest => (digitsVal rest).map (fun n => -(n : Int))
  | '+' :: rest => (digitsVal rest).map (fun n => (n : Int))
  | _ => (digitsVal s).map (fun n => (n : Int))

/-- `int(line.split()[9])`: token index 9 (0-based) of the whitespace-split
line, parsed as an integer; an out-of-range index or parse failure raises
(here: `none`). -/
def tokenAt9 (line : PyStr) : Option Int :=
  match (pySplitWs line).get? 9 with
  | none => none
  | some t => pyInt t

/-- One iteration of the parsing loop in `get_smart_stats`: strip the line,
then the `if 'Load_Cycle_Count' in line: ... elif ...` chain.  A raised
exception (bad index / bad int) aborts the whole call, hence `Option`. -/
def parseSmartLine (stats : Stats) (rawLine : PyStr) : Option Stats :=
  let line := pyStrip rawLine
  if pyContains line "Load_Cycle_Count".data then
    (tokenAt9 line).map (setStat stats "Load_Cycle_Count")
  else if pyContains line "Start_Stop_Count".data then
    (tokenAt9 line).map (setStat stats "Start_Stop_Count")
  else if pyContains line "Reallocated_Sector_Ct".data then
    (tokenAt9 line).map (setStat stats "Reallocated_Sector_Ct")
  else if pyContains line "Current_Pending_Sector".data then
    (tokenAt9 line).map (setStat stats "Current_Pending_Sector")
  else if pyContains line "Offline_Uncorrectable".data then
    (tokenAt9 line).map (setStat stats "Offline_Uncorrectable")
  else if pyContains line "UDMA_CRC_Error_Count".data then
    (tokenAt9 line).map (setStat stats "UDMA_CRC_Error_Count")
  else some stats

/-- The parsing loop of `get_smart_stats` over `result.stdout.split('\n')`,
starting from the empty `stats = {}`. -/
def parseSmartOut (out : PyStr) : Option Stats :=
  (splitLines out).foldlM parseSmartLine []

/-- Outcome of the `subprocess.run(['sudo', 'smartctl', '-A', device], timeout=5)`
call: either a timeout (`subprocess.TimeoutExpired`) or a completed process
with a return code and captured stdout. -/
inductive SubprocResult where
  | timeout
  | completed (returncode : Int) (stdout : PyStr)

/-- `get_smart_stats`: timeout yields `None`; a return code outside `[0, 4]`
yields `None`; otherwise the stdout is parsed (a parse exception also yields
`None`, via `parseSmartOut`). -/
def get_smart_stats : SubprocResult → Option Stats
  | SubprocResult.timeout => none
  | SubprocResult.completed rc out =>
      if rc = 0 ∨ rc = 4 then parseSmartOut out else none

/-! Refresh scheduler: the `main` loop drives `update_count` starting at 0 and
chooses a full refresh when `update_count % 60 == 0 and update_count > 0`,
incrementing the counter after each render. -/

/-- The full-refresh condition `update_count % 60 == 0 and update_count > 0`
tested at the top of each loop iteration. -/
def full_refresh_on (update_count : Nat) : Bool :=
  (update_count % 60 == 0) && decide (0 < update_count)

/-- The mutable loop state of `main` (just the update counter). -/
structure SchedulerState where
  update_count : Nat

/-- One loop iteration: decide the refresh mode from the current counter,
then `update_count += 1`.  `true` means the full-refresh path was taken. -/
def scheduler_tick (s : SchedulerState) : Bool × SchedulerState :=
  (full_refresh_on s.update_count, SchedulerState.mk (s.update_count + 1))

/-- Scheduler state after `n` completed loop iterations, starting from
`update_count = 0`. -/
def schedulerStateAfter : Nat → SchedulerState
  | 0 => SchedulerState.mk 0
  | n + 1 => (scheduler_tick (schedulerStateAfter n)).2

/-- Whether the k-th tick (1-based: the k-th execution of the loop body)
takes the full-refresh path. -/
def tickIsFullRefresh (k : Nat) : Bool :=
  (scheduler_tick (schedulerStateAfter (k - 1))).1

/-! Top-level exception handling of `main`. -/

/-- The externally observable panel/logging actions appearing in the
`except` clauses of `main`. -/
inductive PanelAction where
  | logShutdownMsg
  | logErrorMsg
  | printTraceback
  | epdInit
  | epdClearWhite
  | epdSleepCmd
  | moduleExitCleanup
  deriving DecidableEq

/-- The shutdown sequence of the `KeyboardInterrupt` branch:
`epd.init(); epd.Clear(0xFF); epd.sleep(); epdconfig.module_exit(cleanup=True)`. -/
def shutdown_actions : List PanelAction :=
  [PanelAction.epdInit, PanelAction.epdClearWhite, PanelAction.epdSleepCmd,
   PanelAction.moduleExitCleanup]

/-- How the `try` block around the main loop terminates abnormally. -/
inductive LoopTermination where
  | keyboardInterrupt
  | unexpectedError

/-- The actions performed by `main` after the loop raises, per `except`
branch, in source order; afterwards `main` returns and the process exits
(no retry in either branch). -/
def exception_handler : LoopTermination → List PanelAction
  | LoopTermination.keyboardInterrupt => PanelAction.logShutdownMsg :: shutdown_actions
  | LoopTermination.unexpectedError => [PanelAction.logErrorMsg, PanelAction.printTraceback]

/-! Durable baseline store (spec section 4.2). -/

/-- Modelled from the spec: the durable on-disk BaselineStore strategy
(`load`/`save`/`bestBaseline` of spec section 4.2) has no implementation under
`src/` — `src/system_monitor.py` implements only the in-memory ring-buffer
strategy.  A persisted record pairs a capture timestamp (in minutes here)
with the attributes. -/
structure DurableRecord where
  capturedAt : Nat
  attributes : Stats
  deriving DecidableEq

/-- Modelled from the spec: `bestBaseline` of the durable strategy "loads the
persisted record and accepts it only if age is within [23h, 48h]; outside
that window (too fresh or too stale) treat as unavailable".  Times are in
minutes; the age of the record is `now - capturedAt`. -/
def bestBaseline_durable (record : Option DurableRecord) (now : Nat) : Option DurableRecord :=
  match record with
  | none => none
  | some b =>
      if 23 * 60 ≤ now - b.capturedAt ∧ now - b.capturedAt ≤ 48 * 60 then some b else none

/-! Minute-boundary sleep computation of the main loop. -/

/-- Python float modulo `x % y` for `y > 0`: `x - y * floor(x / y)`.
Wall-clock times are modelled as rationals. -/
def pyMod (x y : ℚ) : ℚ := x - y * (⌊x / y⌋ : ℚ)

/-- `seconds_into_minute = now % 60`. -/
def seconds_into_minute (now : ℚ) : ℚ := pyMod now 60

/-- `sleep_time = 60 - seconds_into_minute`. -/
def sleep_time (now : ℚ) : ℚ := 60 - seconds_into_minute now

/-- The wake time after `time.sleep(sleep_time + 1)` (the `+ 1` is the fixed
guard offset in the source). -/
def wake_time (now : ℚ) : ℚ := now + (sleep_time now + 1)

/-- The next wall-clock minute boundary strictly after `now` (or equal to
`now + 60` when `now` is itself a boundary). -/
def next_minute_boundary (now : ℚ) : ℚ := 60 * ((⌊now / 60⌋ : ℚ) + 1)

/-! Helper lemmas. -/

/-- A scan over offsets none of which hits a populated bucket leaves the
candidate unchanged. -/
lemma scanOldest_no_match (hist : History) (h : Fin 24) (L : List Nat)
    (acc : Option (Fin 24))
    (hL : ∀ j ∈ L, (hist (hourBack h j)).isSome = false) :
    scanOldest hist h L acc = acc := by
  induction L generalizing acc with
  | nil => rfl
  | cons a L ih =>
      have ha := hL a (List.mem_cons_self a L)
      simp only [scanOldest, ha, if_false]
      exact ih acc (fun j hj => hL j (List.mem_cons_of_mem a hj))

/-- If the scan list ends with a populated offset `i` followed only by
unpopulated offsets, the final candidate is the bucket at offset `i`. -/
lemma scanOldest_last_match (hist : History) (h : Fin 24) (L1 L2 : List Nat)
    (i : Nat) (acc : Option (Fin 24))
    (hpop : (hist (hourBack h i)).isSome = true)
    (hL2 : ∀ j ∈ L2, (hist (hourBack h j)).isSome = false) :
    scanOldest hist h (L1 ++ i :: L2) acc = some (hourBack h i) := by
  induction L1 generalizing acc with
  | nil =>
      simp only [List.nil_append, scanOldest, hpop, if_true]
      exact scanOldest_no_match hist h L2 _ hL2
  | cons a L1 ih =>
      simp only [List.cons_append, scanOldest]
      exact ih _

/-- Decomposition of the scanned offset range `range(1, 24)` around a chosen
offset `i`. -/
lemma range1_23_decomp (i : Nat) (h1 : 1 ≤ i) (h2 : i ≤ 23) :
    List.range' 1 23 = List.range' 1 (i - 1) ++ i :: List.range' (i + 1) (23 - i) := by
  interval_cases i <;> rfl

/-- A successful baseline lookup names a populated bucket. -/
lemma find_baseline_bucket (hist : History) (h : Fin 24) (p : Stats)
    (hb : find_baseline hist h = some p) : ∃ b, hist b = some p := by
  unfold find_baseline at hb
  by_cases hh : (hist h).isSome
  · rw [if_pos hh] at hb
    exact ⟨h, hb⟩
  · rw [if_neg hh] at hb
    rcases hfb : findFallback hist h with _ | oh
    · rw [hfb] at hb
      cases hb
    · rw [hfb] at hb
      exact ⟨oh, hb⟩

/-- A populated bucket makes the history dict truthy. -/
lemma histNonempty_of_bucket (hist : History) (b : Fin 24) (p : Stats)
    (hb : hist b = some p) : histNonempty hist = true := by
  simp only [histNonempty, List.any_eq_true]
  exact ⟨b, List.mem_finRange b, by simp [hb]⟩

/-- An all-empty history dict is falsy. -/
lemma histNonempty_of_empty (hist : History) (he : ∀ i, hist i = none) :
    histNonempty hist = false := by
  simp only [histNonempty, List.any_eq_false]
  intro i _
  simp [he i]

/-- Core computation of `calculate_deltas` when a current sample and a
baseline are both at hand: the exact subtractions, with absent keys read
as 0. -/
lemma calculate_deltas_of_baseline (hist : History) (h : Fin 24) (s p : Stats)
    (hs : s ≠ []) (hb : find_baseline hist h = some p) :
    calculate_deltas hist (some s) h =
      (some (statsGet s "Load_Cycle_Count" - statsGet p "Load_Cycle_Count"),
       some (statsGet s "Start_Stop_Count" - statsGet p "Start_Stop_Count")) := by
  obtain ⟨b, hbb⟩ := find_baseline_bucket hist h p hb
  have hne := histNonempty_of_bucket hist b p hbb
  have hse : s.isEmpty = false := by
    cases s with
    | nil => exact absurd rfl hs
    | cons a as => rfl
  simp [calculate_deltas, hse, hne, hb]

/-- C1: for a current hour whose bucket is unpopulated, the fallback scan
walks all 23 offsets `hour-1 .. hour-23` (mod 24) without stopping at the
first populated bucket, and the lookup returns the populated bucket furthest
back in that scan order (the maximal offset `i`). -/
theorem C1_fallback_returns_furthest_back
    (hist : History) (h : Fin 24) (i : Nat)
    (hcur : hist h = none) (hge : 1 ≤ i) (hle : i ≤ 23)
    (hpop : (hist (hourBack h i)).isSome = true)
    (hmax : ∀ j : Fin 24, i < (j : Nat) → (hist (hourBack h (j : Nat))).isSome = false) :
    find_baseline hist h = hist (hourBack h i) := by
  have hh : (hist h).isSome = false := by simp [hcur]
  unfold find_baseline
  rw [if_neg (by simp [hh])]
  have hfb : findFallback hist h = some (hourBack h i) := by
    unfold findFallback
    rw [range1_23_decomp i hge hle]
    apply scanOldest_last_match hist h _ _ i none hpop
    intro j hj
    have hjb : i + 1 ≤ j ∧ j < i + 1 + (23 - i) := by
      have := List.mem_range'_1.mp hj
      omega
    have hj24 : j < 24 := by omega
    have := hmax ⟨j, hj24⟩ (by simpa using hjb.1)
    simpa using this
  rw [hfb]

/-- A history with only bucket 5 populated, used to exhibit the fallback
behaviour concretely. -/
def hist5 : History :=
  fun j => if j = (5 : Fin 24) then some [("Load_Cycle_Count", 100)] else none

theorem C1_witness :
    hist5 (10 : Fin 24) = none ∧
    (hist5 (hourBack 10 5)).isSome = true ∧
    find_baseline hist5 10 = some [("Load_Cycle_Count", 100)] := by
  refine ⟨by decide, by decide, ?_⟩
  have h := C1_fallback_returns_furthest_back hist5 10 5 (by decide) (by decide)
    (by decide) (by decide) (by decide)
  rw [h]
  decide

/-- C2: whenever a (non-empty) current attribute set and a baseline are both
at hand, the delta computation is the total function returning exactly the two
counter subtractions, with a missing counter key read as 0, no clamping, and
negative results surfaced as-is. -/
theorem C2_delta_exact_subtraction
    (hist : History) (h : Fin 24) (s p : Stats)
    (hs : s ≠ []) (hb : find_baseline hist h = some p) :
    calculate_deltas hist (some s) h =
      (some (statsGet s "Load_Cycle_Count" - statsGet p "Load_Cycle_Count"),
       some (statsGet s "Start_Stop_Count" - statsGet p "Start_Stop_Count")) :=
  calculate_deltas_of_baseline hist h s p hs hb

/-- A history with only bucket 7 populated, whose stats exceed the current
sample (forcing negative deltas) and whose current sample misses the
`Load_Cycle_Count` key (read as 0). -/
def histC2 : History :=
  fun j =>
    if j = (7 : Fin 24) then some [("Load_Cycle_Count", 10), ("Start_Stop_Count", 2)]
    else none

theorem C2_witness :
    ([("Start_Stop_Count", (1 : Int))] ≠ ([] : Stats)) ∧
    find_baseline histC2 7 = some [("Load_Cycle_Count", 10), ("Start_Stop_Count", 2)] ∧
    calculate_deltas histC2 (some [("Start_Stop_Count", 1)]) 7 = (some (-10), some (-1)) := by
  refine ⟨by decide, by decide, ?_⟩
  have h := C2_delta_exact_subtraction histC2 7 [("Start_Stop_Count", 1)]
    [("Load_Cycle_Count", 10), ("Start_Stop_Count", 2)] (by decide) (by decide)
  rw [h]
  decide

/-- C4: within one render cycle the baseline lookup reads the pre-write
history: when the current hour's bucket is populated it is returned directly
(no fallback), the deltas are computed against that ~24h-old value, and only
afterwards does the bucket get overwritten with the current sample. -/
theorem C4_read_before_write
    (hist : History) (h : Fin 24) (s p : Stats)
    (hs : s ≠ []) (hb : hist h = some p) :
    find_baseline hist h = some p ∧
    (render_display_smart hist (some s) h).1 =
      (some (statsGet s "Load_Cycle_Count" - statsGet p "Load_Cycle_Count"),
       some (statsGet s "Start_Stop_Count" - statsGet p "Start_Stop_Count")) ∧
    (render_display_smart hist (some s) h).2 h = some s := by
  have hfb : find_baseline hist h = some p := by
    unfold find_baseline
    rw [if_pos (by simp [hb])]
    exact hb
  have hse : s.isEmpty = false := by
    cases s with
    | nil => exact absurd rfl hs
    | cons a as => rfl
  refine ⟨hfb, ?_, ?_⟩
  · exact calculate_deltas_of_baseline hist h s p hs hfb
  · simp [render_display_smart, update_smart_history, pyTruthy, hse, Function.update_same]

/-- A history whose bucket 3 holds yesterday's counters, distinct from the
current sample, exhibiting read-before-write concretely. -/
def histC4 : History :=
  fun j =>
    if j = (3 : Fin 24) then some [("Load_Cycle_Count", 50), ("Start_Stop_Count", 7)]
    else none

theorem C4_witness :
    ([("Load_Cycle_Count", (60 : Int)), ("Start_Stop_Count", (9 : Int))] ≠ ([] : Stats)) ∧
    histC4 3 = some [("Load_Cycle_Count", 50), ("Start_Stop_Count", 7)] ∧
    (find_baseline histC4 3 = some [("Load_Cycle_Count", 50), ("Start_Stop_Count", 7)] ∧
     (render_display_smart histC4
        (some [("Load_Cycle_Count", 60), ("Start_Stop_Count", 9)]) 3).1 =
        (some (statsGet [("Load_Cycle_Count", 60), ("Start_Stop_Count", 9)] "Load_Cycle_Count" -
               statsGet [("Load_Cycle_Count", 50), ("Start_Stop_Count", 7)] "Load_Cycle_Count"),
         some (statsGet [("Load_Cycle_Count", 60), ("Start_Stop_Count", 9)] "Start_Stop_Count" -
               statsGet [("Load_Cycle_Count", 50), ("Start_Stop_Count", 7)] "Start_Stop_Count")) ∧
     (render_display_smart histC4
        (some [("Load_Cycle_Count", 60), ("Start_Stop_Count", 9)]) 3).2 3 =
        some [("Load_Cycle_Count", 60), ("Start_Stop_Count", 9)]) :=
  ⟨by decide, by decide,
   C4_read_before_write histC4 3 [("Load_Cycle_Count", 60), ("Start_Stop_Count", 9)]
     [("Load_Cycle_Count", 50), ("Start_Stop_Count", 7)] (by decide) (by decide)⟩

/-- C5: when the current SMART sample is absent, or every history bucket is
unpopulated, the delta computation yields `(none, none)`; and with an absent
sample the history is left entirely unchanged (no write is attempted). -/
theorem C5_unavailable_no_delta_no_write
    (hist : History) (smart : Option Stats) (h : Fin 24)
    (hcase : smart = none ∨ ∀ i : Fin 24, hist i = none) :
    (render_display_smart hist smart h).1 = (none, none) ∧
    (smart = none → (render_display_smart hist smart h).2 = hist) := by
  constructor
  · rcases hcase with rfl | hempty
    · rfl
    · cases smart with
      | none => rfl
      | some s =>
          have hne := histNonempty_of_empty hist hempty
          simp [render_display_smart, calculate_deltas, hne]
  · intro hnone
    subst hnone
    rfl

theorem C5_witness :
    ((none : Option Stats) = none ∨ ∀ i : Fin 24, hist5 i = none) ∧
    ((render_display_smart hist5 none 10).1 = (none, none) ∧
     ((none : Option Stats) = none → (render_display_smart hist5 none 10).2 = hist5)) :=
  ⟨Or.inl rfl, C5_unavailable_no_delta_no_write hist5 none 10 (Or.inl rfl)⟩

/-- The loop counter after `n` iterations is `n`. -/
lemma schedulerStateAfter_count (n : Nat) : (schedulerStateAfter n).update_count = n := by
  induction n with
  | zero => rfl
  | succ n ih => simp [schedulerStateAfter, scheduler_tick, ih]

/-- C3 counterexample: the claim says tick 60 performs a full refresh, but the
60th execution of the loop body runs with `update_count = 59` and takes the
fast-update path; ticks 1..60 are all fast updates and the first full refresh
is tick 61. -/
theorem C3_counterexample :
    tickIsFullRefresh 60 = false ∧ tickIsFullRefresh 61 = true := by
  constructor <;> decide

/-- C3 (amended): starting fresh, ticks 1 through 60 take the fast-update
path (the first iteration runs with `update_count = 0`, which the condition
excludes); tick 61 performs a full refresh for exactly one cycle; thereafter
a full refresh recurs exactly on ticks congruent to 1 mod 60 (61, 121, ...),
so the pattern repeats every 60 ticks, one tick later than claimed. -/
theorem C3_full_refresh_pattern (k : Nat) (hk : 1 ≤ k) :
    tickIsFullRefresh k = true ↔ (61 ≤ k ∧ k % 60 = 1) := by
  unfold tickIsFullRefresh scheduler_tick full_refresh_on
  simp only [schedulerStateAfter_count, Bool.and_eq_true, beq_iff_eq, decide_eq_true_eq]
  omega

theorem C3_witness :
    1 ≤ 61 ∧ (tickIsFullRefresh 61 = true ↔ (61 ≤ 61 ∧ 61 % 60 = 1)) :=
  ⟨by decide, C3_full_refresh_pattern 61 (by decide)⟩

/-- A realistic smartctl attribute table fragment: a header line, two
attribute lines (each with more than ten whitespace-separated tokens, so that
the selected token is position 9 rather than the end of the line), and a
non-attribute line. -/
def demoSmartOut : PyStr :=
  ("ID# ATTRIBUTE_NAME          FLAG     VALUE WORST THRESH TYPE      UPDATED  WHEN_FAILED RAW_VALUE\n193 Load_Cycle_Count        0x0032   098   098   000    Old_age   Always       -       52312 tail\n  4 Start_Stop_Count        0x0032   100   100   000    Old_age   Always       -       123 tail\nSMART overall-health self-assessment test result: PASSED\n").data

/-- The stats dict produced by parsing `demoSmartOut`: the raw value is the
token at index 9 (52312 and 123), not the trailing token. -/
def demoSmartStats : Stats := [("Load_Cycle_Count", 52312), ("Start_Stop_Count", 123)]

/-- C6: the smartctl sampling yields `None` on timeout and on every exit code
other than 0 and 4; exit codes 0 and 4 are treated identically as success; and
each recognized counter is read from token index 9 (0-based) of the
whitespace-split line containing the attribute name (demonstrated on
`demoSmartOut`, whose attribute lines carry an 11th token that is ignored). -/
theorem C6_smart_result_semantics :
    get_smart_stats SubprocResult.timeout = none ∧
    (∀ (rc : Int) (out : PyStr), rc ≠ 0 → rc ≠ 4 →
        get_smart_stats (SubprocResult.completed rc out) = none) ∧
    (∀ out : PyStr,
        get_smart_stats (SubprocResult.completed 0 out) = parseSmartOut out ∧
        get_smart_stats (SubprocResult.completed 4 out) = parseSmartOut out) ∧
    parseSmartOut demoSmartOut = some demoSmartStats := by
  refine ⟨rfl, ?_, ?_, by decide⟩
  · intro rc out h0 h4
    simp [get_smart_stats, h0, h4]
  · intro out
    constructor <;> simp [get_smart_stats]

theorem C6_witness :
    ((2 : Int) ≠ 0) ∧ ((2 : Int) ≠ 4) ∧
    get_smart_stats (SubprocResult.completed 2 demoSmartOut) = none :=
  ⟨by decide, by decide,
   C6_smart_result_semantics.2.1 2 demoSmartOut (by decide) (by decide)⟩

/-- C7 counterexample: the claim says an unexpected exception triggers the
shutdown sequence exactly once, but the generic `except Exception` branch only
logs and prints the traceback — none of the four shutdown actions appears. -/
theorem C7_counterexample :
    exception_handler LoopTermination.unexpectedError =
      [PanelAction.logErrorMsg, PanelAction.printTraceback] ∧
    (exception_handler LoopTermination.unexpectedError).count PanelAction.epdClearWhite = 0 := by
  constructor <;> decide

/-- C7 (amended): an unexpected exception is caught at the outermost loop
boundary, logged together with a printed stack trace, and not retried — but
the shutdown sequence (panel re-init, clear, sleep, resource release) is not
attempted on that path; it runs, exactly once, only for the
`KeyboardInterrupt` branch. -/
theorem C7_fatal_error_no_shutdown :
    exception_handler LoopTermination.unexpectedError =
      [PanelAction.logErrorMsg, PanelAction.printTraceback] ∧
    shutdown_actions.all
      (fun a => !(exception_handler LoopTermination.unexpectedError).contains a) = true ∧
    exception_handler LoopTermination.keyboardInterrupt =
      PanelAction.logShutdownMsg :: shutdown_actions := by
  refine ⟨rfl, ?_, rfl⟩
  decide

/-- Sample attributes for the durable-store boundary checks. -/
def demoDurableStats : Stats := [("Load_Cycle_Count", 950), ("Start_Stop_Count", 190)]

/-- C8: the durable-store lookup accepts a persisted record exactly when its
age (in minutes) lies in the inclusive window [23h, 48h]: for any record of
age `age`, the result is the record itself iff `1380 ≤ age ≤ 2880`, and the
four boundary instances behave as the spec lists (none at 22h59m and 48h01m,
the record at exactly 23h00m and 48h00m). -/
theorem C8_durable_window :
    (∀ (t : Nat) (s : Stats) (age : Nat),
        bestBaseline_durable (some (DurableRecord.mk t s)) (t + age) =
          if 23 * 60 ≤ age ∧ age ≤ 48 * 60 then some (DurableRecord.mk t s) else none) ∧
    bestBaseline_durable (some (DurableRecord.mk 0 demoDurableStats)) 1379 = none ∧
    bestBaseline_durable (some (DurableRecord.mk 0 demoDurableStats)) 1380 =
      some (DurableRecord.mk 0 demoDurableStats) ∧
    bestBaseline_durable (some (DurableRecord.mk 0 demoDurableStats)) 2880 =
      some (DurableRecord.mk 0 demoDurableStats) ∧
    bestBaseline_durable (some (DurableRecord.mk 0 demoDurableStats)) 2881 = none := by
  refine ⟨?_, by decide, by decide, by decide, by decide⟩
  intro t s age
  simp [bestBaseline_durable, Nat.add_sub_cancel_left]

/-- C9: before each cycle the loop computes its sleep as
`60 - (now mod 60)` seconds plus the fixed guard offset of one second, so the
wake time is exactly one second past the next wall-clock minute boundary
(which itself lies in `(now, now + 60]`), rather than a flat 60 seconds after
`now`. -/
theorem C9_minute_alignment (now : ℚ) :
    sleep_time now = 60 - (now - 60 * (⌊now / 60⌋ : ℚ)) ∧
    wake_time now = next_minute_boundary now + 1 ∧
    now < next_minute_boundary now ∧
    next_minute_boundary now ≤ now + 60 := by
  refine ⟨rfl, ?_, ?_, ?_⟩
  · unfold wake_time sleep_time seconds_into_minute pyMod next_minute_boundary
    ring
  · unfold next_minute_boundary
    have h := Int.lt_floor_add_one (now / 60)
    have h60 : (0 : ℚ) < 60 := by norm_num
    have := (div_lt_iff₀ h60).mp h
    push_cast at this ⊢
    linarith
  · unfold next_minute_boundary
    have h2 : (⌊now / 60⌋ : ℚ) * 60 ≤ now := by
      have h := Int.floor_le (now / 60)
      calc (⌊now / 60⌋ : ℚ) * 60 ≤ (now / 60) * 60 :=
            mul_le_mul_of_nonneg_right h (by norm_num)
        _ = now := by field_simp
    linarith

/-- Each `update_smart_history` step preserves "all stored buckets are
non-empty dicts". -/
lemma histAfterUpdates_inv (ups : List (Option Stats × Fin 24)) (hist : History)
    (hinv : ∀ (i : Fin 24) (s : Stats), hist i = some s → s ≠ []) :
    ∀ (i : Fin 24) (s : Stats),
      (ups.foldl (fun h u => update_smart_history h u.1 u.2) hist) i = some s → s ≠ [] := by
  induction ups generalizing hist with
  | nil => exact hinv
  | cons u rest ih =>
      obtain ⟨st, hr⟩ := u
      simp only [List.foldl_cons]
      apply ih
      intro i s hi
      unfold update_smart_history at hi
      cases st with
      | none => exact hinv i s hi
      | some l =>
          replace hi :
              (if List.isEmpty l = true then hist else Function.update hist hr (some l)) i =
                some s := hi
          by_cases hl : l.isEmpty
          · rw [if_pos hl] at hi
            exact hinv i s hi
          · rw [if_neg hl] at hi
            rw [Function.update_apply] at hi
            by_cases hiu : i = hr
            · rw [if_pos hiu] at hi
              cases hi
              intro hc
              subst hc
              exact hl rfl
            · rw [if_neg hiu] at hi
              exact hinv i s hi

/-- C10: an empty SMART attribute dict behaves exactly like an unavailable
reading at the public interface: recording it (like recording `None`) leaves
the history untouched, the delta computation with it as the current sample
yields `(none, none)`, and consequently every value ever stored in the
hour-keyed history is a non-empty attribute dict. -/
theorem C10_empty_stats_like_unavailable :
    (∀ (hist : History) (h : Fin 24),
        update_smart_history hist none h = hist ∧
        update_smart_history hist (some []) h = hist) ∧
    (∀ (hist : History) (h : Fin 24),
        calculate_deltas hist (some []) h = (none, none)) ∧
    (∀ (ups : List (Option Stats × Fin 24)) (i : Fin 24) (s : Stats),
        histAfterUpdates ups i = some s → s ≠ []) := by
  refine ⟨fun hist h => ⟨rfl, rfl⟩, fun hist h => rfl, ?_⟩
  intro ups i s
  exact histAfterUpdates_inv ups emptyHistory (fun _ _ hc => Option.noConfusion hc) i s

/-- A single-update history used to instantiate the C10 invariant. -/
def demoUps : List (Option Stats × Fin 24) := [(some [("Load_Cycle_Count", 1)], 3)]

theorem C10_witness :
    histAfterUpdates demoUps 3 = some [("Load_Cycle_Count", 1)] ∧
    ([("Load_Cycle_Count", (1 : Int))] ≠ ([] : Stats)) :=
  ⟨by decide,
   C10_empty_stats_like_unavailable.2.2 demoUps 3 [("Load_Cycle_Count", 1)] (by decide)⟩
